import Mathlib

/-!
# Boundary-setter engine: formal model

A shallow embedding of the geometric boundary-construction and
validation engine of `src/src/App.tsx` (polygon-setter-react), with
theorems settling the specification's claims about it.

JavaScript numbers are modelled as real numbers.  `leafletDistance` is
the haversine great-circle distance computed by Leaflet's
`LatLng.distanceTo` (spherical Earth of radius 6371000 m, `Math.atan2`
modelled case by case); `isCenterInsidePolygon` is the source's
bounding-box containment check; the session operations mirror the React
handlers of the `App` component.
-/

namespace App

/-- Geographic coordinate: the source's `Coordinates` interface
(`{lat, lng}`).  Polygon vertices (`[lat, lng]` tuples in the source)
are modelled with the same type. -/
structure Coordinates where
  lat : ℝ
  lng : ℝ

/-- JavaScript's `Math.atan2 y x`, split by the signs of the arguments
(`Math.atan2(0, 0) = 0`). -/
noncomputable def atan2 (y x : ℝ) : ℝ :=
  if 0 < x then Real.arctan (y / x)
  else if x < 0 ∧ 0 ≤ y then Real.arctan (y / x) + Real.pi
  else if x < 0 then Real.arctan (y / x) - Real.pi
  else if 0 < y then Real.pi / 2
  else if y < 0 then -(Real.pi / 2)
  else 0

/-- The haversine intermediate `a` of Leaflet's `CRS.Earth.distance`
for the clicked point `p` and the point `c` it is measured to:
`sinDLat² + cos lat1 · cos lat2 · sinDLon²`. -/
noncomputable def haverA (p c : Coordinates) : ℝ :=
  Real.sin ((c.lat - p.lat) * (Real.pi / 180) / 2)
      * Real.sin ((c.lat - p.lat) * (Real.pi / 180) / 2)
    + Real.cos (p.lat * (Real.pi / 180)) * Real.cos (c.lat * (Real.pi / 180))
      * (Real.sin ((c.lng - p.lng) * (Real.pi / 180) / 2)
          * Real.sin ((c.lng - p.lng) * (Real.pi / 180) / 2))

/-- Leaflet's `L.latLng(p).distanceTo(c)`: haversine great-circle
distance on a sphere of radius `CRS.Earth.R = 6371000` metres,
`R * 2 * atan2 (√a) (√(1 - a))`. -/
noncomputable def leafletDistance (p c : Coordinates) : ℝ :=
  6371000 * (2 * atan2 (Real.sqrt (haverA p c)) (Real.sqrt (1 - haverA p c)))

/-- Leaflet `LatLngBounds`: south-west and north-east corners. -/
structure Bounds where
  minLat : ℝ
  maxLat : ℝ
  minLng : ℝ
  maxLng : ℝ

/-- `LatLngBounds.extend`: widen the bounds to include one more point. -/
def Bounds.extend (b : Bounds) (c : Coordinates) : Bounds :=
  ⟨min b.minLat c.lat, max b.maxLat c.lat, min b.minLng c.lng, max b.maxLng c.lng⟩

/-- `L.polygon(coords).getBounds()`: the bounds extended over every
point of the polygon (`none` for an empty point list). -/
def boundsOf : List Coordinates → Option Bounds
  | [] => none
  | c :: rest => some (rest.foldl Bounds.extend ⟨c.lat, c.lat, c.lng, c.lng⟩)

/-- The source's `isCenterInsidePolygon`: fewer than 3 vertices gives
`false`; otherwise `polygonLayer.getBounds().contains(centerPoint)`,
i.e. inclusive comparison of the point against the axis-aligned
bounding rectangle of the vertices. -/
noncomputable def isCenterInsidePolygon (center : Coordinates)
    (poly : List Coordinates) : Bool :=
  if poly.length < 3 then false
  else
    match boundsOf poly with
    | none => false
    | some b =>
        decide (b.minLat ≤ center.lat) && decide (center.lat ≤ b.maxLat)
          && decide (b.minLng ≤ center.lng) && decide (center.lng ≤ b.maxLng)

/-- The state held by the `App` component: `storeName`, `center`,
`polygonCoordinates` (the vertex sequence, insertion order) and
`radiusLimit`. -/
structure Session where
  storeName : String
  center : Coordinates
  vertices : List Coordinates
  radiusLimit : ℝ

/-- The source's `defaultCoordinates`. -/
def defaultCoordinates : Coordinates := ⟨51.4998819, -0.0992492⟩

/-- The component's initial state. -/
def initialSession : Session :=
  ⟨"Terrys Cafe London", defaultCoordinates, [], 5000⟩

/-- Outcome of a map click (the spec's `attemptAddVertex` results). -/
inductive AddResult
  | Accepted
  | RejectedTooMany
  | RejectedOutOfRadius
  deriving DecidableEq

/-- The `click` handler inside `MapClickHandler`: append the clicked
point when fewer than 5 vertices exist and its distance to the center
is at most `radiusLimit`; otherwise report which rule rejected it. -/
noncomputable def mapClick (s : Session) (p : Coordinates) : Session × AddResult :=
  if s.vertices.length < 5 ∧ leafletDistance p s.center ≤ s.radiusLimit then
    ({ s with vertices := s.vertices ++ [p] }, AddResult.Accepted)
  else if 5 ≤ s.vertices.length then
    (s, AddResult.RejectedTooMany)
  else
    (s, AddResult.RejectedOutOfRadius)

/-- `handleUndoLastPoint`: `polygonCoordinates.slice(0, -1)` drops the
last vertex (no-op on an empty sequence). -/
def handleUndoLastPoint (s : Session) : Session :=
  { s with vertices := s.vertices.dropLast }

/-- `handleClearAllPoints`: empties the vertex sequence only. -/
def handleClearAllPoints (s : Session) : Session :=
  { s with vertices := [] }

/-- Save-time failures (the spec's error taxonomy for
`validateAndSave`). -/
inductive SaveError
  | IncompleteBoundary
  | CenterNotContained
  deriving DecidableEq

/-- Modelled from the spec: the snapshot `{center, vertices, storeName}`
emitted by a successful `validateAndSave` (§4.2).  The source's
`handleSavePolygon` performs no backend call — it only builds the
vertex list mapped to `{latitude, longitude}` records and logs it — so
the snapshot's shape is taken from the spec while its contents and the
guards of `handleSavePolygon` follow the source. -/
structure Snapshot where
  center : Coordinates
  vertices : List Coordinates
  storeName : String

/-- `handleSavePolygon`: reject when the vertex count differs from 5,
then when `isCenterInsidePolygon` fails; otherwise emit the snapshot.
The second component is the session afterwards — the handler calls no
state setter, so it is the input session unchanged. -/
noncomputable def handleSavePolygon (s : Session) :
    Except SaveError Snapshot × Session :=
  if s.vertices.length ≠ 5 then
    (Except.error SaveError.IncompleteBoundary, s)
  else if isCenterInsidePolygon s.center s.vertices = false then
    (Except.error SaveError.CenterNotContained, s)
  else
    (Except.ok ⟨s.center, s.vertices, s.storeName⟩, s)

/-- Which component of the center a `handleCenterChange` edit targets. -/
inductive CenterKey
  | lat
  | lng

/-- `handleCenterChange(key)`: overwrite one component of `center` with
the parsed input value; an empty input (`none`) becomes `0`.  Nothing
else changes. -/
def handleCenterChange (k : CenterKey) (v : Option ℝ) (s : Session) : Session :=
  match k with
  | CenterKey.lat => { s with center := { s.center with lat := v.getD 0 } }
  | CenterKey.lng => { s with center := { s.center with lng := v.getD 0 } }

/-- The radius input's `onChange`: `setRadiusLimit(Number(value))`. -/
def setRadiusLimit (r : ℝ) (s : Session) : Session :=
  { s with radiusLimit := r }

/-- The specification's rule order for `attemptAddVertex`, written from
its words: first the vertex-count cap, then the radius gate, then
append.  Compared against `mapClick` below. -/
noncomputable def attemptAddVertexSpec (s : Session) (p : Coordinates) :
    Session × AddResult :=
  if 5 ≤ s.vertices.length then (s, AddResult.RejectedTooMany)
  else if s.radiusLimit < leafletDistance p s.center then
    (s, AddResult.RejectedOutOfRadius)
  else ({ s with vertices := s.vertices ++ [p] }, AddResult.Accepted)

/-- The session commands of the spec's state machine that touch the
vertex sequence. -/
inductive Op
  | add (p : Coordinates)
  | undo
  | clear

/-- Apply one command to a session. -/
noncomputable def applyOp (s : Session) : Op → Session
  | Op.add p => (mapClick s p).1
  | Op.undo => handleUndoLastPoint s
  | Op.clear => handleClearAllPoints s

/-- Run a command sequence from the initial (empty-vertex) session. -/
noncomputable def runOps (ops : List Op) : Session :=
  ops.foldl applyOp initialSession

/-- Modelled from the spec: one step of the standard ray-casting
(even-odd) point-in-polygon test — does the leftward horizontal ray
from `p` cross the edge from `a` to `b`?  The source has no such
function; §9 records that `isCenterInsidePolygon` uses the bounding box
instead. -/
noncomputable def crossesB (p a b : Coordinates) : Bool :=
  (decide (p.lat < a.lat) != decide (p.lat < b.lat))
    && decide (p.lng < (b.lng - a.lng) * (p.lat - a.lat) / (b.lat - a.lat) + a.lng)

/-- Modelled from the spec: fold the parity of ray crossings over the
consecutive edges of the vertex list, closing the ring with the edge
back to `first`. -/
noncomputable def edgeLoop (p first : Coordinates) : List Coordinates → Bool
  | a :: b :: rest => xor (crossesB p a b) (edgeLoop p first (b :: rest))
  | [a] => crossesB p a first
  | [] => false

/-- Modelled from the spec: the ray-casting point-in-polygon test of
§4.1, treating the vertex sequence as an implicitly closed ring; fewer
than 3 vertices gives `false`. -/
noncomputable def pointInPolygon (p : Coordinates) (poly : List Coordinates) : Bool :=
  if poly.length < 3 then false
  else
    match poly with
    | [] => false
    | v0 :: _ => edgeLoop p v0 poly

/-- Concave test pentagon (lat, lng): in (lng, lat) plane this is the
simple arrow-head pentagon (0,0), (10,0), (10,10), (5,2), (0,10) whose
notch leaves the point (lng 5, lat 8) outside the polygon but inside
its bounding rectangle. -/
def notchPolygon : List Coordinates :=
  [⟨0, 0⟩, ⟨0, 10⟩, ⟨10, 10⟩, ⟨2, 5⟩, ⟨10, 0⟩]

/-- A 5-entry vertex list whose first and last vertices coincide: not a
simple 5-gon. -/
def degeneratePolygon : List Coordinates :=
  [⟨0, 0⟩, ⟨4, 0⟩, ⟨4, 4⟩, ⟨0, 4⟩, ⟨0, 0⟩]

/-- C2: for every session state and candidate point, the source's click
handler implements the spec's rule order exactly: with 5 or more
vertices the click is rejected as too many regardless of the
candidate's distance; otherwise a candidate whose great-circle distance
to the current center exceeds `radiusLimit` is rejected as out of
radius; otherwise the point is appended at the end and accepted. -/
theorem mapClick_rule_order (s : Session) (p : Coordinates) :
    mapClick s p = attemptAddVertexSpec s p := by
  unfold mapClick attemptAddVertexSpec
  rcases le_or_lt 5 s.vertices.length with h5 | h5
  · rw [if_neg (fun hc => Nat.lt_irrefl 5 (Nat.lt_of_le_of_lt h5 hc.1)),
      if_pos h5, if_pos h5]
  · rcases le_or_lt (leafletDistance p s.center) s.radiusLimit with hd | hd
    · rw [if_pos ⟨h5, hd⟩, if_neg (Nat.not_le.mpr h5), if_neg (not_lt.mpr hd)]
    · rw [if_neg (fun hc => not_le.mpr hd hc.2), if_neg (Nat.not_le.mpr h5),
        if_neg (Nat.not_le.mpr h5), if_pos hd]

/-- Each command preserves the 5-vertex cap. -/
theorem applyOp_length_le (s : Session) (op : Op)
    (h : s.vertices.length ≤ 5) : (applyOp s op).vertices.length ≤ 5 := by
  cases op with
  | add p =>
      show ((mapClick s p).1).vertices.length ≤ 5
      unfold mapClick
      split_ifs with h1 h2
      · simp only [List.length_append, List.length_cons, List.length_nil]
        omega
      · exact h
      · exact h
  | undo =>
      show (handleUndoLastPoint s).vertices.length ≤ 5
      simp only [handleUndoLastPoint, List.length_dropLast]
      omega
  | clear =>
      show (handleClearAllPoints s).vertices.length ≤ 5
      simp [handleClearAllPoints]

/-- C3: starting from the initial empty session, every finite sequence
of add/undo/clear commands leaves the vertex count between 0 and 5
inclusive (every prefix of a run is itself a run, so this bounds the
count after each step). -/
theorem runOps_length_invariant (ops : List Op) :
    0 ≤ (runOps ops).vertices.length ∧ (runOps ops).vertices.length ≤ 5 := by
  refine ⟨Nat.zero_le _, ?_⟩
  have main : ∀ (l : List Op) (s : Session), s.vertices.length ≤ 5 →
      (l.foldl applyOp s).vertices.length ≤ 5 := by
    intro l
    induction l with
    | nil => exact fun s hs => hs
    | cons op rest ih => exact fun s hs => ih _ (applyOp_length_le s op hs)
  exact main ops initialSession (by simp [initialSession])

/-- C5: saving with a vertex count other than 5 reports
`IncompleteBoundary` — this guard runs before the containment check, so
the result is independent of where the center lies — and clearing all
points followed by a save always reports `IncompleteBoundary`. -/
theorem save_incomplete_first :
    (∀ s : Session, s.vertices.length ≠ 5 →
        handleSavePolygon s = (Except.error SaveError.IncompleteBoundary, s)) ∧
      ∀ s : Session, handleSavePolygon (handleClearAllPoints s) =
        (Except.error SaveError.IncompleteBoundary, handleClearAllPoints s) := by
  constructor
  · intro s h
    unfold handleSavePolygon
    rw [if_pos h]
  · intro s
    have h : (handleClearAllPoints s).vertices.length ≠ 5 := by
      simp [handleClearAllPoints]
    unfold handleSavePolygon
    rw [if_pos h]

/-- Witness for C5 at a concrete two-vertex session. -/
theorem save_incomplete_first_witness :
    handleSavePolygon ⟨"Terrys Cafe London", ⟨0, 0⟩, [⟨0, 0⟩, ⟨1, 1⟩], 5000⟩ =
      (Except.error SaveError.IncompleteBoundary,
        ⟨"Terrys Cafe London", ⟨0, 0⟩, [⟨0, 0⟩, ⟨1, 1⟩], 5000⟩) :=
  save_incomplete_first.1 _ (by decide)

/-- C7: editing the center (either component, including the
empty-input-to-0 path) or the radius leaves the vertex sequence — and
every field other than the edited one — unchanged: no existing vertex
is dropped or re-validated. -/
theorem setters_frame (k : CenterKey) (v : Option ℝ) (r : ℝ) (s : Session) :
    (handleCenterChange k v s).vertices = s.vertices ∧
      (handleCenterChange k v s).radiusLimit = s.radiusLimit ∧
      (handleCenterChange k v s).storeName = s.storeName ∧
      (setRadiusLimit r s).vertices = s.vertices ∧
      (setRadiusLimit r s).center = s.center ∧
      (setRadiusLimit r s).storeName = s.storeName := by
  cases k <;> simp [handleCenterChange, setRadiusLimit]

/-- C8: with fewer than 3 vertices the containment test returns
`false` and signals no error — both the source's bounding-box test and
the spec's ray-casting test. -/
theorem degenerate_containment_false (c : Coordinates) (poly : List Coordinates)
    (h : poly.length < 3) :
    isCenterInsidePolygon c poly = false ∧ pointInPolygon c poly = false := by
  constructor
  · unfold isCenterInsidePolygon
    rw [if_pos h]
  · unfold pointInPolygon
    rw [if_pos h]

/-- Witness for C8 at a two-vertex list. -/
theorem degenerate_containment_false_witness :
    isCenterInsidePolygon ⟨0, 0⟩ [⟨1, 1⟩, ⟨2, 2⟩] = false ∧
      pointInPolygon ⟨0, 0⟩ [⟨1, 1⟩, ⟨2, 2⟩] = false :=
  degenerate_containment_false _ _ (by decide)

/-- C4: when the session holds exactly 5 vertices and the containment
test accepts the center, `handleSavePolygon` succeeds with a snapshot
holding exactly the current center, the 5 vertices in insertion order
and the store name, and the session itself — center, radius, vertices,
store name — is left unchanged (no implicit reset). -/
theorem save_success_snapshot (s : Session) (h5 : s.vertices.length = 5)
    (hin : isCenterInsidePolygon s.center s.vertices = true) :
    handleSavePolygon s = (Except.ok ⟨s.center, s.vertices, s.storeName⟩, s) := by
  unfold handleSavePolygon
  rw [if_neg (by omega), if_neg (by simp [hin])]

/-- Witness for C4 at a concrete 5-vertex session whose center sits in
the polygon (and in its bounding box). -/
theorem save_success_snapshot_witness :
    handleSavePolygon ⟨"Terrys Cafe London", ⟨2, 2⟩,
        [⟨0, 0⟩, ⟨4, 0⟩, ⟨4, 4⟩, ⟨2, 6⟩, ⟨0, 4⟩], 5000⟩ =
      (Except.ok ⟨⟨2, 2⟩, [⟨0, 0⟩, ⟨4, 0⟩, ⟨4, 4⟩, ⟨2, 6⟩, ⟨0, 4⟩],
          "Terrys Cafe London"⟩,
        ⟨"Terrys Cafe London", ⟨2, 2⟩,
          [⟨0, 0⟩, ⟨4, 0⟩, ⟨4, 4⟩, ⟨2, 6⟩, ⟨0, 4⟩], 5000⟩) :=
  save_success_snapshot _ (by decide) (by
    unfold isCenterInsidePolygon boundsOf
    norm_num [Bounds.extend, List.foldl, min_def, max_def])

/-- C10: nothing checks simplicity or distinctness of the vertices: the
5-entry list `degeneratePolygon` repeats the vertex (0,0) at positions
0 and 4, yet it passes the containment test at center (2,2) and
`handleSavePolygon` returns a successful snapshot rather than any
error. -/
theorem save_accepts_degenerate :
    degeneratePolygon.get ⟨0, by decide⟩ = degeneratePolygon.get ⟨4, by decide⟩ ∧
      handleSavePolygon ⟨"Terrys Cafe London", ⟨2, 2⟩, degeneratePolygon, 5000⟩ =
        (Except.ok ⟨⟨2, 2⟩, degeneratePolygon, "Terrys Cafe London"⟩,
          ⟨"Terrys Cafe London", ⟨2, 2⟩, degeneratePolygon, 5000⟩) := by
  have hin : isCenterInsidePolygon ⟨2, 2⟩ degeneratePolygon = true := by
    unfold isCenterInsidePolygon degeneratePolygon boundsOf
    norm_num [Bounds.extend, List.foldl, min_def, max_def]
  refine ⟨rfl, ?_⟩
  unfold handleSavePolygon
  rw [if_neg (by decide), if_neg (by simp [hin])]

/-- C1 (code defect): the containment test behind the save handler is
the axis-aligned bounding-box check, not geometric containment.  The
center (lat 8, lng 5) lies inside the bounding rectangle of the simple
concave pentagon `notchPolygon` but outside the pentagon itself — its
horizontal ray crosses the closed ring an even number of times, so the
ray-casting test mandated by the spec answers `false` — yet
`isCenterInsidePolygon` answers `true` and the save succeeds. -/
theorem boundingBox_defect :
    isCenterInsidePolygon ⟨8, 5⟩ notchPolygon = true ∧
      pointInPolygon ⟨8, 5⟩ notchPolygon = false ∧
      handleSavePolygon ⟨"Terrys Cafe London", ⟨8, 5⟩, notchPolygon, 5000⟩ =
        (Except.ok ⟨⟨8, 5⟩, notchPolygon, "Terrys Cafe London"⟩,
          ⟨"Terrys Cafe London", ⟨8, 5⟩, notchPolygon, 5000⟩) := by
  have hin : isCenterInsidePolygon ⟨8, 5⟩ notchPolygon = true := by
    unfold isCenterInsidePolygon notchPolygon boundsOf
    norm_num [Bounds.extend, List.foldl, min_def, max_def]
  refine ⟨hin, ?_, ?_⟩
  · have c1 : crossesB ⟨8, 5⟩ ⟨0, 0⟩ ⟨0, 10⟩ = false := by norm_num [crossesB]
    have c2 : crossesB ⟨8, 5⟩ ⟨0, 10⟩ ⟨10, 10⟩ = true := by norm_num [crossesB]
    have c3 : crossesB ⟨8, 5⟩ ⟨10, 10⟩ ⟨2, 5⟩ = true := by norm_num [crossesB]
    have c4 : crossesB ⟨8, 5⟩ ⟨2, 5⟩ ⟨10, 0⟩ = false := by norm_num [crossesB]
    have c5 : crossesB ⟨8, 5⟩ ⟨10, 0⟩ ⟨0, 0⟩ = false := by norm_num [crossesB]
    unfold pointInPolygon notchPolygon
    simp [edgeLoop, c1, c2, c3, c4, c5]
  · unfold handleSavePolygon
    rw [if_neg (by decide), if_neg (by simp [hin])]

/-- Squared sine of a scaled difference is symmetric in the two
endpoints. -/
theorem sinsq_sub_symm (x y k : ℝ) :
    Real.sin ((x - y) * k / 2) * Real.sin ((x - y) * k / 2)
      = Real.sin ((y - x) * k / 2) * Real.sin ((y - x) * k / 2) := by
  rw [show (x - y) * k / 2 = -((y - x) * k / 2) by ring, Real.sin_neg]
  ring

/-- The haversine intermediate is symmetric in its two points. -/
theorem haverA_comm (p c : Coordinates) : haverA p c = haverA c p := by
  unfold haverA
  rw [sinsq_sub_symm c.lat p.lat, sinsq_sub_symm c.lng p.lng]
  ring

/-- The haversine intermediate vanishes on equal points. -/
theorem haverA_self (a : Coordinates) : haverA a a = 0 := by
  simp [haverA]

/-- The distance from a coordinate to itself is 0. -/
theorem leafletDistance_self (a : Coordinates) : leafletDistance a a = 0 := by
  simp [leafletDistance, haverA_self, atan2]

/-- At latitude 90 the longitude no longer matters to the haversine
intermediate: `cos (π/2) = 0` kills the longitude term. -/
theorem haverA_pole : haverA ⟨90, 0⟩ ⟨90, 90⟩ = 0 := by
  show Real.sin (((90:ℝ) - 90) * (Real.pi / 180) / 2)
        * Real.sin (((90:ℝ) - 90) * (Real.pi / 180) / 2)
      + Real.cos ((90:ℝ) * (Real.pi / 180)) * Real.cos ((90:ℝ) * (Real.pi / 180))
        * (Real.sin (((90:ℝ) - 0) * (Real.pi / 180) / 2)
            * Real.sin (((90:ℝ) - 0) * (Real.pi / 180) / 2)) = 0
  rw [show ((90:ℝ) - 90) * (Real.pi / 180) / 2 = 0 by ring,
    show (90:ℝ) * (Real.pi / 180) = Real.pi / 2 by ring,
    Real.sin_zero, Real.cos_pi_div_two]
  ring

/-- The two distinct pole coordinates (90,0) and (90,90) are at
haversine distance 0. -/
theorem leafletDistance_pole : leafletDistance ⟨90, 0⟩ ⟨90, 90⟩ = 0 := by
  unfold leafletDistance
  rw [haverA_pole, Real.sqrt_zero, show (1:ℝ) - 0 = 1 by norm_num, Real.sqrt_one]
  unfold atan2
  rw [if_pos (show (0:ℝ) < 1 by norm_num), zero_div, Real.arctan_zero]
  ring

/-- For the antipodal-longitude pair (0,180)/(0,0) the haversine
intermediate is exactly 1. -/
theorem haverA_far : haverA ⟨0, 180⟩ ⟨0, 0⟩ = 1 := by
  show Real.sin (((0:ℝ) - 0) * (Real.pi / 180) / 2)
        * Real.sin (((0:ℝ) - 0) * (Real.pi / 180) / 2)
      + Real.cos ((0:ℝ) * (Real.pi / 180)) * Real.cos ((0:ℝ) * (Real.pi / 180))
        * (Real.sin (((0:ℝ) - 180) * (Real.pi / 180) / 2)
            * Real.sin (((0:ℝ) - 180) * (Real.pi / 180) / 2)) = 1
  rw [show ((0:ℝ) - 0) * (Real.pi / 180) / 2 = 0 by ring,
    show (0:ℝ) * (Real.pi / 180) = 0 by ring,
    show ((0:ℝ) - 180) * (Real.pi / 180) / 2 = -(Real.pi / 2) by ring,
    Real.sin_zero, Real.cos_zero, Real.sin_neg, Real.sin_pi_div_two]
  ring

/-- The point (0,180) is far more than 5000 m from the center (0,0):
its haversine distance is 6371000·π metres. -/
theorem leafletDistance_far_gt : 5000 < leafletDistance ⟨0, 180⟩ ⟨0, 0⟩ := by
  unfold leafletDistance
  rw [haverA_far, show (1:ℝ) - 1 = 0 by norm_num, Real.sqrt_one, Real.sqrt_zero]
  unfold atan2
  rw [if_neg (lt_irrefl (0:ℝ)), if_neg (fun h => lt_irrefl (0:ℝ) h.1),
    if_neg (lt_irrefl (0:ℝ)), if_pos (show (0:ℝ) < 1 by norm_num)]
  nlinarith [Real.pi_gt_three]

/-- C9 (amended): the great-circle distance is symmetric, and the
distance from every coordinate to itself is 0.  The remaining half of
the original claim — distance zero only at equal coordinates — fails on
the code; see the accompanying counterexample theorem. -/
theorem leafletDistance_symm_and_selfzero (a b : Coordinates) :
    leafletDistance a b = leafletDistance b a ∧ leafletDistance a a = 0 :=
  ⟨by unfold leafletDistance; rw [haverA_comm], leafletDistance_self a⟩

/-- C9 is refuted as stated: the two distinct in-range coordinates
(90,0) and (90,90) — both at the north pole — are at distance exactly
0, so zero distance does not imply equal coordinates. -/
theorem leafletDistance_zero_ne_counterexample :
    leafletDistance ⟨90, 0⟩ ⟨90, 90⟩ = 0 ∧ (⟨90, 0⟩ : Coordinates) ≠ ⟨90, 90⟩ := by
  refine ⟨leafletDistance_pole, fun h => ?_⟩
  have h2 := congrArg Coordinates.lng h
  norm_num at h2

/-- C6 (amended): in any session obeying the 5-vertex cap whose last
vertex `p` lies within the current radius of the current center — which
is automatic when center and radius are unchanged since `p` was
accepted — undoing the last point and re-adding `p` restores the vertex
sequence exactly. -/
theorem undo_readd_restores (s : Session) (vs : List Coordinates) (p : Coordinates)
    (hv : s.vertices = vs ++ [p]) (hlen : s.vertices.length ≤ 5)
    (hd : leafletDistance p s.center ≤ s.radiusLimit) :
    (mapClick (handleUndoLastPoint s) p).1.vertices = s.vertices := by
  have hdrop : (handleUndoLastPoint s).vertices = vs := by
    show s.vertices.dropLast = vs
    rw [hv, List.dropLast_concat]
  have hvslen : vs.length + 1 ≤ 5 := by
    have h := hlen
    rw [hv, List.length_append, List.length_cons, List.length_nil] at h
    omega
  have hcond : (handleUndoLastPoint s).vertices.length < 5 ∧
      leafletDistance p (handleUndoLastPoint s).center
        ≤ (handleUndoLastPoint s).radiusLimit := by
    refine ⟨?_, ?_⟩
    · rw [hdrop]; omega
    · show leafletDistance p s.center ≤ s.radiusLimit
      exact hd
  unfold mapClick
  rw [if_pos hcond]
  show (handleUndoLastPoint s).vertices ++ [p] = s.vertices
  rw [hdrop, hv]

/-- Witness for the amended C6: a one-vertex session whose vertex is
the center itself (distance 0 ≤ 5000). -/
theorem undo_readd_restores_witness :
    (mapClick (handleUndoLastPoint ⟨"Terrys Cafe London", ⟨0, 0⟩, [⟨0, 0⟩], 5000⟩)
        ⟨0, 0⟩).1.vertices =
      (⟨"Terrys Cafe London", ⟨0, 0⟩, [⟨0, 0⟩], 5000⟩ : Session).vertices :=
  undo_readd_restores _ [] _ rfl (by decide)
    (by show leafletDistance ⟨0, 0⟩ ⟨0, 0⟩ ≤ 5000
        rw [leafletDistance_self]
        norm_num)

/-- C6 is refuted as stated: in the session with center (0,0), radius
5000 m and the single vertex (0,180) — a state reachable because center
and radius edits never re-validate existing vertices — undoing and then
re-adding that same last vertex does not restore the sequence: the
vertex now lies about 2·10⁷ m from the center, so the re-add is
rejected out of radius and the sequence stays empty instead of
returning to its prior value. -/
theorem undo_readd_counterexample :
    (mapClick (handleUndoLastPoint ⟨"Terrys Cafe London", ⟨0, 0⟩, [⟨0, 180⟩], 5000⟩)
        ⟨0, 180⟩).1.vertices = [] ∧
      (⟨"Terrys Cafe London", ⟨0, 0⟩, [⟨0, 180⟩], 5000⟩ : Session).vertices ≠ [] := by
  constructor
  · show (mapClick ⟨"Terrys Cafe London", ⟨0, 0⟩, [], 5000⟩ ⟨0, 180⟩).1.vertices = []
    unfold mapClick
    rw [if_neg (fun hc => absurd hc.2 (not_le.mpr leafletDistance_far_gt)),
      if_neg (by decide)]
  · simp

end App
